import Mathlib

/-!
A shallow embedding of the WhatsApp batch-delivery core of this repository
(`batch-utils`: contact normalization, the send/verify/retry state machine,
the skip policy and the batch orchestrator), together with theorems settling
the specification's claims about it.

JavaScript strings are modelled as `List Char`; machine numbers as `Int`/`Nat`.
The external transport (the whatsapp-web.js `Client`, the browser session,
the wall clock and `Math.random`) is modelled as an oracle structure; every
transport call is recorded in an event trace so that claims about which
operations are invoked, and how often, can be stated and proved.
-/

/-- JavaScript strings are modelled as lists of characters. -/
abbrev Str := List Char

namespace Batch

/-- `String(x).trim().replace(/\D/g, '')`: strip every non-digit character
(trimming first removes only whitespace, which the digit filter removes
anyway, so the composition is the digit filter). -/
def stripNonDigits (s : Str) : Str :=
  s.filter Char.isDigit

/-- One iteration of the source's repair loop: insert the filler digit '9'
between the 4th and 5th digit (`d.slice(0, 4) + '9' + d.slice(4)`). -/
def insertFill (d : Str) : Str :=
  d.take 4 ++ '9' :: d.drop 4

/-- The `while (d.length < 13 && d.length >= 4)` loop of
`ensureBrazilian13Digits`, with explicit fuel so that it is structurally
recursive. Each live iteration grows the string by one digit, so the guard
`length < 13` dies after at most 13 iterations and 13 units of fuel are never
exhausted (`ensureLoop_guard_dead` below makes this precise). -/
def ensureLoop : Nat → Str → Str
  | 0, d => d
  | fuel + 1, d =>
    if d.length < 13 ∧ 4 ≤ d.length then ensureLoop fuel (insertFill d)
    else d

/-- Source `ensureBrazilian13Digits` (batch-utils): while the digit string has
fewer than 13 and at least 4 digits, insert the filler digit '9' between the
4th and 5th digit. -/
def ensureBrazilian13Digits (d : Str) : Str :=
  ensureLoop 13 d

/-- Source `normalizeContactWithFix`: strip non-digits; empty result returns the
contact unchanged; a '@' in the *stripped* string returns the contact unchanged
(this test is on the digit-only string, exactly as in the source); otherwise
repair the length and append the "@c.us" suffix, reporting whether the length
repair applied. -/
def normalizeContactWithFix (contact : Str) : Str × Bool :=
  let trimmed := stripNonDigits contact
  if trimmed = [] then (contact, false)
  else if trimmed.contains '@' then (contact, false)
  else
    let hadWrongLength := decide (trimmed.length < 13 ∧ 4 ≤ trimmed.length)
    let digits := ensureBrazilian13Digits trimmed
    (digits ++ "@c.us".data, hadWrongLength)

/-- Source `normalizeContactId`: the normalized contact of `normalizeContactWithFix`. -/
def normalizeContactId (contact : Str) : Str :=
  (normalizeContactWithFix contact).1

/-- Source `contactDigits`: drop everything from the first '@' on
(`replace(/@.*$/, '')`), then strip non-digits. -/
def contactDigits (contactId : Str) : Str :=
  stripNonDigits (contactId.takeWhile (fun c => c != '@'))

/-- JavaScript `String.prototype.includes`: `pat` occurs contiguously in `s`. -/
def strIncludes (pat : Str) : Str → Bool
  | [] => pat.isPrefixOf []
  | c :: rest => pat.isPrefixOf (c :: rest) || strIncludes pat rest

/-- Source `isNoLidError`: the error text contains "No LID for user" or
"LID for user". -/
def isNoLidError (msg : Str) : Bool :=
  strIncludes "No LID for user".data msg || strIncludes "LID for user".data msg

/-- Source constant `VERIFY_DELAY_MS` (default delay before verification). -/
def VERIFY_DELAY_MS : Int := 2000

/-- Source constant `DEFAULT_MAX_VERIFY_RETRIES`. -/
def DEFAULT_MAX_VERIFY_RETRIES : Nat := 2

/-- A settled JavaScript promise: the (virtual) time at which it settles and
its outcome (resolution or rejection reason). -/
structure PromiseModel (α : Type) where
  settleAt : Nat
  result : Except Str α

/-- The rejection reason built by `withTimeout`'s timer. The source renders the
bound in seconds (`Send timeout after ${ms / 1000}s`); only the fact that the
text is a timeout label (and contains no "LID for user") is behaviorally
relevant, so the model keeps the millisecond numeral. -/
def timeoutMessage (ms : Int) : Str :=
  "Send timeout after ".data ++ (toString ms).data ++ "ms".data

/-- Source `withTimeout`: `ms <= 0` returns the promise untouched (no timer is
installed); otherwise the promise races a timer that rejects at `ms`. A promise
settling no later than the timer wins the race (same-tick promise reactions run
before timer callbacks). -/
def withTimeout {α : Type} (p : PromiseModel α) (ms : Int) : PromiseModel α :=
  if ms ≤ 0 then p
  else if p.settleAt ≤ ms.toNat then p
  else { settleAt := ms.toNat, result := Except.error (timeoutMessage ms) }

/-- Source `randomDelayMs`: `minMs` when the range is degenerate, otherwise
`minMs` plus the RNG draw reduced to the range width; `rand` stands for
`Math.floor(Math.random() * (maxMs - minMs + 1))`. -/
def randomDelayMs (minMs maxMs : Int) (rand : Nat) : Int :=
  if minMs ≥ maxMs then minMs
  else minMs + Int.ofNat (rand % (maxMs - minMs + 1).toNat)

/-- Environment-supplied configuration (src/config.js); defaults are the
source's fallbacks when the corresponding env vars are unset. -/
structure Config where
  batchDelayMinMs : Int := 5000
  batchDelayMaxMs : Int := 30000
  batchSendTimeoutMs : Int := 60000

/-- Result shape of the plain send helpers (`{ success, error? }`). -/
structure SendRes where
  success : Bool
  error : Option Str := none
deriving DecidableEq

/-- Oracle model of the external whatsapp-web.js `Client`, the browser-send
collaborator and the ambient platform state. Sends and history reads are
indexed by the number of prior calls of their kind in the run, because the
platform's answers change over time (messages get delivered between calls);
the best-effort identity lookups used by `resolveChatId` are modelled as
time-independent. `none` on a lookup models a throw (the source swallows it)
or an empty answer. -/
structure Client where
  /-- Serialized ids returned by `client.getChats()`. -/
  chats : List Str
  /-- `client.getContactLidAndPhone([id])`: the `{ lid, pn }` record of the
  first entry, or `none` for a throw / missing entry. -/
  lidAndPhone : Str → Option (Option Str × Option Str)
  /-- `client.getNumberId(id)`: serialized canonical id, or `none`. -/
  numberId : Str → Option Str
  /-- `client.sendMessage(id, msg)` as a promise, indexed by prior send count. -/
  sendMessage : Str → Str → Nat → PromiseModel Unit
  /-- `chat.fetchMessages({ fromMe: true, limit })` after `getChatById(id)`:
  the `(body, timestamp)` list, most recent last; `none` models a throw.
  Indexed by prior history-read count. -/
  fetchFromMe : Str → Nat → Option (List (Str × Nat))
  /-- `openChatAndSendMessage` of the external browser-send collaborator
  (src/send-via-browser.js), addressed by digits; indexed by prior send count. -/
  browserSend : Str → Str → Nat → SendRes
  /-- Source `isTodayUnix` compares a Unix timestamp against the current local
  date; the wall clock is part of the environment, so the whole predicate is
  an oracle. -/
  isTodayUnix : Nat → Bool
  /-- `Math.random()` draws, one per pacing delay, already scaled per
  `randomDelayMs`: draw `i` feeds item `i`. -/
  rng : Nat → Nat
  /-- Environment configuration read through src/config.js. -/
  cfg : Config := {}

/-- Mutable platform state threaded through a run: how many transport sends
and history reads have happened so far. -/
structure World where
  nSend : Nat := 0
  nRead : Nat := 0
deriving DecidableEq

/-- Observable events of a run: suspensions, transport calls and the
orchestrator's callbacks/result appends. -/
inductive Ev where
  | sleepEv (ms : Int)
  | sendEv (id : Str)
  | browserSendEv (digits : Str)
  | readEv (id : Str)
  | progressEv (current total : Nat) (id : Str)
  | appendEv (id : Str)
deriving DecidableEq

/-- An effectful step's value together with the updated world and the events
it emitted, in order. -/
structure Eff (α : Type) where
  val : α
  world : World
  events : List Ev

/-- Number of transport send calls in a trace. -/
def countSends (t : List Ev) : Nat :=
  (t.filter (fun e => match e with | Ev.sendEv _ => true | _ => false)).length

/-- Number of history-read transport calls in a trace. -/
def countReads (t : List Ev) : Nat :=
  (t.filter (fun e => match e with | Ev.readEv _ => true | _ => false)).length

/-- True on the orchestrator's progress-callback event. -/
def isProgressEv : Ev → Bool
  | Ev.progressEv _ _ _ => true
  | _ => false

/-- True on the orchestrator's outcome-append event. -/
def isAppendEv : Ev → Bool
  | Ev.appendEv _ => true
  | _ => false

/-- Source `resolveChatId`: best-effort resolution of the id to address, first
success wins. (1) an existing chat whose digits match or whose id equals the
contact id; (2) `getContactLidAndPhone`, lid preferred over pn; (3)
`getNumberId`; (4) the original id unchanged. Every step swallows its own
errors (modelled by the `Option` answers). -/
def resolveChatId (c : Client) (contactId : Str) : Str :=
  let digits := contactDigits contactId
  match c.chats.find? (fun id => contactDigits id == digits || id == contactId) with
  | some id => id
  | none =>
    match c.lidAndPhone contactId with
    | some (some lid, _) => lid
    | some (none, some pn) => pn
    | _ =>
      match c.numberId contactId with
      | some wid => wid
      | none => contactId

/-- The `(body, timestamp)` answer `getLastMessageFromMeWithDate` extracts from
read number `n`: `none` on a throw, an empty list, or a missing last element;
otherwise the most recent message from us. -/
def lastFromMeOracle (c : Client) (contactId : Str) (n : Nat) : Option (Str × Nat) :=
  match c.fetchFromMe contactId n with
  | none => none
  | some msgs => msgs.getLast?

/-- Source `getLastMessageFromMeWithDate`: one history read; returns the last
message from us with its timestamp, or `none` if none or on error. -/
def getLastMessageFromMeWithDate (c : Client) (contactId : Str) (w : World) :
    Eff (Option (Str × Nat)) where
  val := lastFromMeOracle c contactId w.nRead
  world := { w with nRead := w.nRead + 1 }
  events := [Ev.readEv contactId]

/-- Source `getLastMessageFromMe`: the body of `getLastMessageFromMeWithDate`. -/
def getLastMessageFromMe (c : Client) (contactId : Str) (w : World) :
    Eff (Option Str) :=
  let r := getLastMessageFromMeWithDate c contactId w
  { val := r.val.map Prod.fst, world := r.world, events := r.events }

/-- Source `sendViaBrowser`: address the contact by digits and delegate to the
external browser-send collaborator (the `pupBrowser` presence check and the
`timeoutMs` fallback live inside the oracle). -/
def sendViaBrowser (c : Client) (contactId _message : Str) (_sendTimeoutMs : Int)
    (w : World) : Eff SendRes :=
  let digits := contactDigits contactId
  { val := c.browserSend digits _message w.nSend
    world := { w with nSend := w.nSend + 1 }
    events := [Ev.browserSendEv digits] }

/-- Source `sendOnce`: resolve the chat id, send once under the timeout; on a
"No LID for user" failure for a phone-based (`@c.us`) contact, retry once with
the `@lid` form of the digits if that differs from the id already tried. -/
def sendOnce (c : Client) (contactId message : Str) (sendTimeoutMs : Int)
    (w : World) : Eff SendRes :=
  let chatId := resolveChatId c contactId
  let p := withTimeout (c.sendMessage chatId message w.nSend) sendTimeoutMs
  let w1 := { w with nSend := w.nSend + 1 }
  match p.result with
  | Except.ok _ => { val := { success := true }, world := w1, events := [Ev.sendEv chatId] }
  | Except.error err =>
    if isNoLidError err && "@c.us".data.isSuffixOf contactId then
      let lidId := contactDigits contactId ++ "@lid".data
      if lidId ≠ chatId then
        let p2 := withTimeout (c.sendMessage lidId message w1.nSend) sendTimeoutMs
        let w2 := { w1 with nSend := w1.nSend + 1 }
        match p2.result with
        | Except.ok _ =>
          { val := { success := true }, world := w2, events := [Ev.sendEv chatId, Ev.sendEv lidId] }
        | Except.error err2 =>
          { val := { success := false, error := some err2 }, world := w2
            events := [Ev.sendEv chatId, Ev.sendEv lidId] }
      else
        { val := { success := false, error := some err }, world := w1
          events := [Ev.sendEv chatId] }
    else
      { val := { success := false, error := some err }, world := w1
        events := [Ev.sendEv chatId] }

/-- Result shape of `sendAndVerify`
(`{ success, error?, retried?, alreadySent? }`). -/
structure SAVResult where
  success : Bool
  error : Option Str := none
  retried : Option Nat := none
  alreadySent : Bool := false
deriving DecidableEq

/-- Options of `sendAndVerify`; `none` means the caller omitted the field and
the source default applies. -/
structure SAVOpts where
  sendTimeoutMs : Option Int := none
  verifyDelayMs : Option Int := none
  maxVerifyRetries : Option Nat := none
  checkAlreadySent : Option Bool := none

/-- Error text for a verification that found no message from us. -/
def verifyNoMessageError : Str :=
  "Verification failed: no last message from us".data

/-- Error text for a verification whose last message does not match
(source interpolates the observed length). -/
def verifyMismatchError (gotLen : Nat) : Str :=
  "Verification failed: last message does not match (got ".data
    ++ (toString gotLen).data ++ " chars)".data

/-- The `for (attempt = 0; attempt <= maxVerifyRetries; attempt++)` loop of
source `sendAndVerify`, one recursive step per iteration; `remaining`
maintains `attempt + remaining = maxVerifyRetries`, so the source's
`attempt === maxVerifyRetries` exit test is `remaining = 0`. Per iteration:
send under the timeout (with the one-shot `@lid` fallback on a "No LID"
failure, which permanently rebinds the chat id); on a dead send, fail now or
sleep and reattempt; on a live send, sleep, read the last message from us and
compare; match returns success with the attempt index, mismatch fails now or
reattempts. The source's `lastError` variable is written before every read on
each path, so it needs no parameter here; the `return` after the loop is
unreachable (every final-attempt path returns inside). -/
def savLoop (c : Client) (contactId message : Str) (sendTimeoutMs verifyDelayMs : Int)
    (chatId : Str) (attempt remaining : Nat) (w : World) : Eff SAVResult :=
  let p := withTimeout (c.sendMessage chatId message w.nSend) sendTimeoutMs
  let w1 := { w with nSend := w.nSend + 1 }
  -- the try/catch around the send: final lastError, chat id to keep using,
  -- world and events of the send phase
  let sendPhase : Option Str × Str × World × List Ev :=
    match p.result with
    | Except.ok _ => (none, chatId, w1, [Ev.sendEv chatId])
    | Except.error err =>
      if isNoLidError err && "@c.us".data.isSuffixOf contactId then
        let lidId := contactDigits contactId ++ "@lid".data
        if lidId ≠ chatId then
          let p2 := withTimeout (c.sendMessage lidId message w1.nSend) sendTimeoutMs
          let w2 := { w1 with nSend := w1.nSend + 1 }
          match p2.result with
          | Except.ok _ => (none, lidId, w2, [Ev.sendEv chatId, Ev.sendEv lidId])
          | Except.error err2 => (some err2, chatId, w2, [Ev.sendEv chatId, Ev.sendEv lidId])
        else (some err, chatId, w1, [Ev.sendEv chatId])
      else (some err, chatId, w1, [Ev.sendEv chatId])
  match sendPhase with
  | (some err, chatId', w', evs) =>
    match remaining with
    | 0 => { val := { success := false, error := some err }, world := w', events := evs }
    | Nat.succ r =>
      let rec' := savLoop c contactId message sendTimeoutMs verifyDelayMs chatId'
        (attempt + 1) r w'
      { val := rec'.val, world := rec'.world
        events := evs ++ Ev.sleepEv verifyDelayMs :: rec'.events }
  | (none, chatId', w', evs) =>
    let read := getLastMessageFromMe c chatId' w'
    let evs2 := evs ++ Ev.sleepEv verifyDelayMs :: read.events
    match read.val with
    | some body =>
      if body = message then
        { val := { success := true, retried := some attempt }, world := read.world
          events := evs2 }
      else
        match remaining with
        | 0 =>
          { val := { success := false, error := some (verifyMismatchError body.length) }
            world := read.world, events := evs2 }
        | Nat.succ r =>
          let rec' := savLoop c contactId message sendTimeoutMs verifyDelayMs chatId'
            (attempt + 1) r read.world
          { val := rec'.val, world := rec'.world, events := evs2 ++ rec'.events }
    | none =>
      match remaining with
      | 0 =>
        { val := { success := false, error := some verifyNoMessageError }
          world := read.world, events := evs2 }
      | Nat.succ r =>
        let rec' := savLoop c contactId message sendTimeoutMs verifyDelayMs chatId'
          (attempt + 1) r read.world
        { val := rec'.val, world := rec'.world, events := evs2 ++ rec'.events }

/-- Source `sendAndVerify`: resolve option defaults (`checkAlreadySent` is on
unless explicitly `false`), resolve the chat id; when checking, read the last
message from us and short-circuit with `alreadySent` if it equals the target;
otherwise run the bounded send/verify loop from attempt 0. -/
def sendAndVerify (c : Client) (contactId message : Str) (o : SAVOpts) (w : World) :
    Eff SAVResult :=
  let sendTimeoutMs := o.sendTimeoutMs.getD c.cfg.batchSendTimeoutMs
  let verifyDelayMs := o.verifyDelayMs.getD VERIFY_DELAY_MS
  let maxVerifyRetries := o.maxVerifyRetries.getD DEFAULT_MAX_VERIFY_RETRIES
  let checkAlreadySent := o.checkAlreadySent != some false
  let chatId := resolveChatId c contactId
  if checkAlreadySent then
    let read := getLastMessageFromMe c chatId w
    if read.val = some message then
      { val := { success := true, alreadySent := true }, world := read.world
        events := read.events }
    else
      let r := savLoop c contactId message sendTimeoutMs verifyDelayMs chatId 0
        maxVerifyRetries read.world
      { val := r.val, world := r.world, events := read.events ++ r.events }
  else
    savLoop c contactId message sendTimeoutMs verifyDelayMs chatId 0 maxVerifyRetries w

/-- One `{ contact, message }` batch input item. -/
structure BatchItem where
  contact : Str
  message : Str
deriving DecidableEq

/-- One per-contact result pushed by `runBatch`. Optional JS fields are
`Option`s / default-`false` `Bool`s; a field the source leaves absent is
`none` / `false` here. -/
structure Outcome where
  contact : Str
  success : Bool
  error : Option Str := none
  retried : Option Nat := none
  alreadySent : Bool := false
  skippedSameDay : Bool := false
  skippedAlreadyReceived : Bool := false
deriving DecidableEq

/-- The `{ sent, failed, results }` aggregate returned by `runBatch`. -/
structure BatchReport where
  sent : Nat
  failed : Nat
  results : List Outcome
deriving DecidableEq

/-- Options of `runBatch`; `none` means the field was omitted and the source
default applies (`skipVerify`/`useBrowserSend` test `=== true`, so omitted and
non-`true` coincide and a plain `Bool` suffices). -/
structure RunOptions where
  minDelayMs : Option Int := none
  maxDelayMs : Option Int := none
  sendTimeoutMs : Option Int := none
  verifyDelayMs : Option Int := none
  maxVerifyRetries : Option Nat := none
  skipVerify : Bool := false
  useBrowserSend : Bool := false
  skipIfEverSent : Option Bool := none
  skipIfSentToday : Option Bool := none

/-- `runBatch`'s option resolution, done once at the top of the function. -/
structure RunCfg where
  minDelayMs : Int
  maxDelayMs : Int
  sendTimeoutMs : Int
  verifyDelayMs : Option Int
  maxVerifyRetries : Option Nat
  skipVerify : Bool
  useBrowserSend : Bool
  skipIfEverSent : Bool
  skipIfSentToday : Bool

/-- Resolve `runBatch` options exactly as the source header does:
delay range and send timeout fall back to config, `skipIfEverSent` and
`skipIfSentToday` are on unless explicitly `false`, and the verify options are
forwarded unresolved to `sendAndVerify`. -/
def resolveRunOptions (c : Client) (o : RunOptions) : RunCfg where
  minDelayMs := o.minDelayMs.getD c.cfg.batchDelayMinMs
  maxDelayMs := o.maxDelayMs.getD c.cfg.batchDelayMaxMs
  sendTimeoutMs := o.sendTimeoutMs.getD c.cfg.batchSendTimeoutMs
  verifyDelayMs := o.verifyDelayMs
  maxVerifyRetries := o.maxVerifyRetries
  skipVerify := o.skipVerify
  useBrowserSend := o.useBrowserSend
  skipIfEverSent := o.skipIfEverSent != some false
  skipIfSentToday := o.skipIfSentToday != some false

/-- The delivery phase of one loop iteration of `runBatch` (the
`useBrowserSend` / `skipVerify` / verified three-way branch, including the
fixed 2500 ms post-send sleep of the browser path). Returns the
`{ success, error?, retried?, alreadySent? }`-shaped result the push code
inspects. -/
def deliverItem (c : Client) (rc : RunCfg) (contactId message : Str) (w : World) :
    Eff SAVResult :=
  if rc.useBrowserSend then
    let r := sendViaBrowser c contactId message rc.sendTimeoutMs w
    if r.val.success then
      { val := { success := true, error := r.val.error }, world := r.world
        events := r.events ++ [Ev.sleepEv 2500] }
    else
      { val := { success := false, error := r.val.error }, world := r.world
        events := r.events }
  else if rc.skipVerify then
    let r := sendOnce c contactId message rc.sendTimeoutMs w
    { val := { success := r.val.success, error := r.val.error }, world := r.world
      events := r.events }
  else
    sendAndVerify c contactId message
      { sendTimeoutMs := some rc.sendTimeoutMs
        verifyDelayMs := rc.verifyDelayMs
        maxVerifyRetries := rc.maxVerifyRetries } w

/-- The skip-policy phase of one `runBatch` iteration: evaluate
`skipIfEverSent` (else `skipIfSentToday`) against the resolved chat's history.
`some outcome` short-circuits the iteration with a skip outcome; `none`
proceeds to delivery. World and events cover the history lookup performed
(no lookup when both policies are off). -/
def skipCheck (c : Client) (rc : RunCfg) (resolvedId contactId : Str) (w : World) :
    Eff (Option Outcome) :=
  if rc.skipIfEverSent then
    let read := getLastMessageFromMe c resolvedId w
    match read.val with
    | some body =>
      if body ≠ [] then
        { val := some
            { contact := contactId, success := true, skippedAlreadyReceived := true }
          world := read.world, events := read.events }
      else { val := none, world := read.world, events := read.events }
    | none => { val := none, world := read.world, events := read.events }
  else if rc.skipIfSentToday then
    let read := getLastMessageFromMeWithDate c resolvedId w
    match read.val with
    | some last =>
      if c.isTodayUnix last.2 then
        { val := some { contact := contactId, success := true, skippedSameDay := true }
          world := read.world, events := read.events }
      else { val := none, world := read.world, events := read.events }
    | none => { val := none, world := read.world, events := read.events }
  else { val := none, world := w, events := [] }

/-- One iteration of the `runBatch` loop at index `i` (0-based): normalize the
contact, sleep the pacing delay, fire the progress callback `(i+1, total,
contactId)`, resolve the chat id, run the skip policy (short-circuit with a
skip outcome), otherwise deliver and push a success or failure outcome. The
value is the pushed outcome with the `(sent, failed)` increments the iteration
makes. -/
def processItem (c : Client) (rc : RunCfg) (total i : Nat) (item : BatchItem)
    (w : World) : Eff (Outcome × Nat × Nat) :=
  let contactId := normalizeContactId item.contact
  let delay := randomDelayMs rc.minDelayMs rc.maxDelayMs (c.rng i)
  let ev0 := [Ev.sleepEv delay, Ev.progressEv (i + 1) total contactId]
  let resolvedId := resolveChatId c contactId
  let sk := skipCheck c rc resolvedId contactId w
  match sk.val with
  | some outcome =>
    { val := (outcome, 0, 0), world := sk.world
      events := ev0 ++ sk.events ++ [Ev.appendEv contactId] }
  | none =>
    let r := deliverItem c rc contactId item.message sk.world
    let outcome : Outcome :=
      if r.val.success then
        { contact := contactId, success := true
          retried := match r.val.retried with
            | some n => if 0 < n then some n else none
            | none => none
          alreadySent := r.val.alreadySent }
      else { contact := contactId, success := false, error := r.val.error }
    { val := (outcome, if r.val.success then (1, 0) else (0, 1)), world := r.world
      events := ev0 ++ sk.events ++ r.events ++ [Ev.appendEv contactId] }

/-- The `for (i = 0; i < total; i++)` loop of `runBatch`, accumulating the
counters, the results in push order and the trace. -/
def runBatchLoop (c : Client) (rc : RunCfg) (total : Nat) :
    Nat → List BatchItem → World → Eff (Nat × Nat × List Outcome)
  | _, [], w => { val := (0, 0, []), world := w, events := [] }
  | i, item :: rest, w =>
    let step := processItem c rc total i item w
    let rest' := runBatchLoop c rc total (i + 1) rest step.world
    { val := (step.val.2.1 + rest'.val.1, step.val.2.2 + rest'.val.2.1,
        step.val.1 :: rest'.val.2.2)
      world := rest'.world
      events := step.events ++ rest'.events }

/-- Source `runBatch`: resolve options, run the sequential loop over all items
and return the `{ sent, failed, results }` report. -/
def runBatch (c : Client) (items : List BatchItem) (o : RunOptions) (w : World) :
    Eff BatchReport :=
  let rc := resolveRunOptions c o
  let r := runBatchLoop c rc items.length 0 items w
  { val := { sent := r.val.1, failed := r.val.2.1, results := r.val.2.2 }
    world := r.world, events := r.events }

/-- True when a transport event (send or history read) addresses `target`;
non-transport events pass vacuously. -/
def evUsesId (target : Str) : Ev → Bool
  | Ev.sendEv id => id == target
  | Ev.readEv id => id == target
  | _ => true

/-- Fixture: a transport whose sends always resolve immediately, whose chats
hold no history, and whose identity lookups all fail over to the input. -/
def baseClient : Client where
  chats := []
  lidAndPhone := fun _ => none
  numberId := fun _ => none
  sendMessage := fun _ _ _ => { settleAt := 0, result := Except.ok () }
  fetchFromMe := fun _ _ => some []
  browserSend := fun _ _ _ => { success := true }
  isTodayUnix := fun _ => false
  rng := fun _ => 0

/-- Fixture: like `baseClient` but every chat already shows "hi" as the last
message from us. -/
def priorHiClient : Client :=
  { baseClient with fetchFromMe := fun _ _ => some [("hi".data, 5)] }

/-- Fixture: like `baseClient` but history is empty for the first two reads
and then shows "m" from us (so a send of "m" verifies on the first attempt
after the two pre-send history checks). -/
def emptyThenMClient : Client :=
  { baseClient with fetchFromMe := fun _ n => if n ≤ 1 then some [] else some [("m".data, 0)] }

/-- Fixture: the first send is rejected with the platform's "No LID for user"
error and every later send resolves; history is empty for the first two reads
and then shows "hi" from us. -/
def lidFallbackClient : Client where
  chats := []
  lidAndPhone := fun _ => none
  numberId := fun _ => none
  sendMessage := fun _ _ n =>
    if n = 0 then { settleAt := 0, result := Except.error "No LID for user".data }
    else { settleAt := 0, result := Except.ok () }
  fetchFromMe := fun _ n => if n ≤ 1 then some [] else some [("hi".data, 0)]
  browserSend := fun _ _ _ => { success := true }
  isTodayUnix := fun _ => false
  rng := fun _ => 0

/-- Fixture: a settled promise rejecting with an unrelated error, used to
probe `withTimeout`. -/
def slowPromise : PromiseModel Unit where
  settleAt := 7
  result := Except.error "boom".data

/-- Fixture: a one-contact batch item whose message "zz" differs from the
prior history of `priorHiClient`. -/
def itemZZ : BatchItem := { contact := "5511999999999".data, message := "zz".data }

/-- Fixture: a batch item with an empty contact string. -/
def itemEmptyContact : BatchItem := { contact := [], message := "m".data }

/-! ## General lemmas about the embedding -/

theorem countSends_append (a b : List Ev) :
    countSends (a ++ b) = countSends a + countSends b := by
  simp [countSends, List.filter_append]

theorem countReads_append (a b : List Ev) :
    countReads (a ++ b) = countReads a + countReads b := by
  simp [countReads, List.filter_append]

/-- The digit-stripped contact can never contain '@'; the source's
`trimmed.includes('@')` early return in `normalizeContactWithFix` is dead
code (the test was evidently meant for the raw contact). -/
theorem stripNonDigits_no_at (s : Str) : '@' ∉ stripNonDigits s := by
  intro h
  exact absurd (List.of_mem_filter h) (by decide)

/-- One live loop iteration grows the digit string by exactly one. -/
theorem insertFill_length (d : Str) (h : 4 ≤ d.length) :
    (insertFill d).length = d.length + 1 := by
  simp only [insertFill, List.length_append, List.length_take, List.length_cons,
    List.length_drop]
  omega

/-- With at least `13 - d.length` units of fuel, the loop runs until its guard
dies; in particular 13 units always suffice. -/
theorem ensureLoop_guard_dead (fuel : Nat) :
    ∀ d : Str, 13 - d.length ≤ fuel →
      ¬ ((ensureLoop fuel d).length < 13 ∧ 4 ≤ (ensureLoop fuel d).length) := by
  induction fuel with
  | zero =>
    intro d hd
    simp only [ensureLoop]
    omega
  | succ n ih =>
    intro d hd
    by_cases h : d.length < 13 ∧ 4 ≤ d.length
    · rw [ensureLoop, if_pos h]
      exact ih (insertFill d) (by rw [insertFill_length d h.2]; omega)
    · rw [ensureLoop, if_neg h]
      exact h

/-- After `ensureBrazilian13Digits` the loop guard is dead: the result is not
both shorter than 13 and at least 4 digits long. -/
theorem ensureBrazilian13Digits_exits (d : Str) :
    ¬ ((ensureBrazilian13Digits d).length < 13 ∧ 4 ≤ (ensureBrazilian13Digits d).length) :=
  ensureLoop_guard_dead 13 d (by omega)

/-- A skip outcome produced by the skip policy carries the normalized contact
and one of the two skip markers. -/
theorem skipCheck_some (c : Client) (rc : RunCfg) (resolvedId contactId : Str)
    (w : World) (o : Outcome)
    (h : (skipCheck c rc resolvedId contactId w).val = some o) :
    o.contact = contactId ∧ (o.skippedAlreadyReceived || o.skippedSameDay) = true := by
  cases hse : rc.skipIfEverSent with
  | true =>
    simp only [skipCheck, hse, getLastMessageFromMe, getLastMessageFromMeWithDate] at h
    cases hv : lastFromMeOracle c resolvedId w.nRead with
    | none => simp [hv] at h
    | some pr =>
      by_cases hb : pr.1 = [] <;> simp [hv, hb] at h
      cases h
      simp
  | false =>
    cases hst : rc.skipIfSentToday with
    | true =>
      simp only [skipCheck, hse, hst, getLastMessageFromMe,
        getLastMessageFromMeWithDate] at h
      cases hv : lastFromMeOracle c resolvedId w.nRead with
      | none => simp [hv] at h
      | some pr =>
        cases ht : c.isTodayUnix pr.2 <;> simp [hv, ht] at h
        cases h
        simp
    | false => simp [skipCheck, hse, hst] at h

/-- Every loop iteration pushes an outcome carrying the normalized contact,
and its `(sent, failed)` increments sum to 1 exactly when the outcome is not a
skip. -/
theorem processItem_shape (c : Client) (rc : RunCfg) (total i : Nat)
    (item : BatchItem) (w : World) :
    ((processItem c rc total i item w).val.1.contact = normalizeContactId item.contact) ∧
      ((processItem c rc total i item w).val.2.1
          + (processItem c rc total i item w).val.2.2
        = if (processItem c rc total i item w).val.1.skippedAlreadyReceived
              || (processItem c rc total i item w).val.1.skippedSameDay
          then 0 else 1) := by
  cases hsk : (skipCheck c rc (resolveChatId c (normalizeContactId item.contact))
      (normalizeContactId item.contact) w).val with
  | some o =>
    obtain ⟨h1, h2⟩ := skipCheck_some c rc _ _ w o hsk
    simp [processItem, hsk, h1, h2]
  | none =>
    simp only [processItem, hsk]
    split <;> simp

/-- With `skipIfEverSent` on, the skip phase always performs exactly one
history read of the resolved chat. -/
theorem skipCheck_reads (c : Client) (rc : RunCfg) (resolvedId contactId : Str)
    (w : World) (hse : rc.skipIfEverSent = true) :
    (skipCheck c rc resolvedId contactId w).events = [Ev.readEv resolvedId] := by
  simp only [skipCheck, hse, getLastMessageFromMe, getLastMessageFromMeWithDate]
  cases hv : lastFromMeOracle c resolvedId w.nRead with
  | none => simp [hv]
  | some pr => by_cases hb : pr.1 = [] <;> simp [hv, hb]

/-- With `skipIfEverSent` on, every iteration makes at least one history-read
transport call — whatever the contact string was. -/
theorem processItem_reads (c : Client) (rc : RunCfg) (total i : Nat)
    (item : BatchItem) (w : World) (hse : rc.skipIfEverSent = true) :
    0 < countReads (processItem c rc total i item w).events := by
  have hsk := skipCheck_reads c rc (resolveChatId c (normalizeContactId item.contact))
    (normalizeContactId item.contact) w hse
  cases hskv : (skipCheck c rc (resolveChatId c (normalizeContactId item.contact))
      (normalizeContactId item.contact) w).val with
  | some o => simp [processItem, hskv, hsk, countReads_append, countReads]
  | none => simp [processItem, hskv, hsk, countReads_append, countReads]

/-- The loop's result list is, in order, one outcome per input item, each
carrying the item's normalized contact. -/
theorem runBatchLoop_contacts (c : Client) (rc : RunCfg) (total : Nat) :
    ∀ (items : List BatchItem) (i : Nat) (w : World),
      ((runBatchLoop c rc total i items w).val.2.2).map Outcome.contact
        = items.map (fun it => normalizeContactId it.contact) := by
  intro items
  induction items with
  | nil => intro i w; rfl
  | cons item rest ih =>
    intro i w
    simp only [runBatchLoop, List.map_cons]
    simp [(processItem_shape c rc total i item w).1, ih]

/-- The loop's counters sum to the number of non-skip outcomes it pushed. -/
theorem runBatchLoop_counts (c : Client) (rc : RunCfg) (total : Nat) :
    ∀ (items : List BatchItem) (i : Nat) (w : World),
      (runBatchLoop c rc total i items w).val.1
          + (runBatchLoop c rc total i items w).val.2.1
        = ((runBatchLoop c rc total i items w).val.2.2.filter
            (fun r => !r.skippedAlreadyReceived && !r.skippedSameDay)).length := by
  intro items
  induction items with
  | nil => intro i w; rfl
  | cons item rest ih =>
    intro i w
    obtain ⟨h1, h2⟩ := processItem_shape c rc total i item w
    have hrec := ih (i + 1) (processItem c rc total i item w).world
    simp only [runBatchLoop, List.filter_cons]
    cases hA : (processItem c rc total i item w).val.1.skippedAlreadyReceived <;>
      cases hS : (processItem c rc total i item w).val.1.skippedSameDay <;>
      all_goals (simp [hA, hS] at h2 ⊢; omega)

/-! ## Claim theorems -/

/-- C1: for every transport, input list and options, `runBatch` produces
exactly one `DeliveryOutcome` per `BatchItem` — the results list has the same
length as the input and its i-th entry carries the i-th item's (normalized)
contact, in input order. -/
theorem runBatch_one_outcome_per_item (c : Client) (items : List BatchItem)
    (o : RunOptions) (w : World) :
    ((runBatch c items o w).val.results).map Outcome.contact
        = items.map (fun it => normalizeContactId it.contact) ∧
      (runBatch c items o w).val.results.length = items.length := by
  have h := runBatchLoop_contacts c (resolveRunOptions c o) items.length items 0 w
  constructor
  · simpa [runBatch] using h
  · have h2 := congrArg List.length h
    simpa [runBatch] using h2

/-- C2 (counterexample): on a one-item batch whose contact is skipped because
prior history exists, every result's `success` field is a boolean yet
`sent + failed = 0 ≠ 1`: the claimed equation fails on skipped items. -/
theorem runBatch_sent_failed_cx :
    (runBatch priorHiClient [itemZZ] {} {}).val.sent
        + (runBatch priorHiClient [itemZZ] {} {}).val.failed
      ≠ ((runBatch priorHiClient [itemZZ] {} {}).val.results.filter
          (fun r => r.success || !r.success)).length := by
  decide

/-- C2 (amended): the `sent` and `failed` counters together account for every
outcome that is not a skip: `sent + failed` equals the number of results with
neither `skippedAlreadyReceived` nor `skippedSameDay` set (skips have
`success: true` but increment neither counter). -/
theorem runBatch_counters_cover_nonskipped (c : Client) (items : List BatchItem)
    (o : RunOptions) (w : World) :
    (runBatch c items o w).val.sent + (runBatch c items o w).val.failed
      = ((runBatch c items o w).val.results.filter
          (fun r => !r.skippedAlreadyReceived && !r.skippedSameDay)).length := by
  simpa [runBatch] using
    runBatchLoop_counts c (resolveRunOptions c o) items.length items 0 w

/-- C5 (counterexample): an item with an empty contact string is not failed
fast: on a transport that accepts the send, the outcome is a success, and a
transport send call is made for it. -/
theorem runBatch_empty_contact_cx :
    (runBatch emptyThenMClient [itemEmptyContact] {} {}).val.results
        = [{ contact := [], success := true }] ∧
      countSends (runBatch emptyThenMClient [itemEmptyContact] {} {}).events = 1 := by
  decide

/-- C5 (amended): a batch item whose contact has no digits is not rejected:
`normalizeContactId` passes the contact through unchanged and, with the
default skip policy, the orchestrator still performs at least one history-read
transport call for it (and, when not skipped, delivery calls follow); the
outcome is whatever the transport yields. -/
theorem runBatch_digitfree_contact_no_failfast
    (c : Client) (o : RunOptions) (w : World) (contact msg : Str)
    (hnd : stripNonDigits contact = [])
    (hskip : o.skipIfEverSent ≠ some false) :
    normalizeContactId contact = contact ∧
      0 < countReads (runBatch c [{ contact := contact, message := msg }] o w).events := by
  constructor
  · simp [normalizeContactId, normalizeContactWithFix, hnd]
  · have hse : (resolveRunOptions c o).skipIfEverSent = true := by
      simpa [resolveRunOptions] using hskip
    have h := processItem_reads c (resolveRunOptions c o) 1 0
      { contact := contact, message := msg } w hse
    simpa [runBatch, runBatchLoop, countReads_append] using h

/-- Witness for the amended C5 at the empty contact string. -/
theorem runBatch_digitfree_contact_no_failfast_witness :
    normalizeContactId [] = [] ∧
      0 < countReads (runBatch emptyThenMClient
        [{ contact := [], message := "m".data }] {} {}).events :=
  runBatch_digitfree_contact_no_failfast emptyThenMClient {} {} [] ("m".data)
    rfl (by decide)

/-- C7 (counterexample): in a concrete one-item run the progress callback
fires at trace position 1, before the outcome append at position 3 — not
after the outcome is appended as claimed. -/
theorem runBatch_progress_before_append_cx :
    (runBatch priorHiClient [itemZZ] {} {}).events.findIdx? isProgressEv = some 1 ∧
      (runBatch priorHiClient [itemZZ] {} {}).events.findIdx? isAppendEv = some 3 := by
  decide

/-- C7 (amended): per processed item the orchestrator, after the (pure)
identity normalization, first sleeps the pacing delay, then invokes the
progress callback `(i+1, total, identity)`, then performs the skip-policy
evaluation and delivery, and appends the outcome last; and `runBatch`'s trace
is exactly these per-item segments in sequence. -/
theorem processItem_progress_fires_second (c : Client) (rc : RunCfg) (total i : Nat)
    (item : BatchItem) (w : World) :
    (∃ d mid, (processItem c rc total i item w).events
        = Ev.sleepEv d :: Ev.progressEv (i + 1) total (normalizeContactId item.contact)
            :: (mid ++ [Ev.appendEv (normalizeContactId item.contact)])) ∧
      ∀ rest, (runBatchLoop c rc total i (item :: rest) w).events
        = (processItem c rc total i item w).events
            ++ (runBatchLoop c rc total (i + 1) rest
                (processItem c rc total i item w).world).events := by
  refine ⟨?_, fun rest => rfl⟩
  cases hskv : (skipCheck c rc (resolveChatId c (normalizeContactId item.contact))
      (normalizeContactId item.contact) w).val with
  | some o =>
    exact ⟨randomDelayMs rc.minDelayMs rc.maxDelayMs (c.rng i),
      (skipCheck c rc (resolveChatId c (normalizeContactId item.contact))
        (normalizeContactId item.contact) w).events,
      by simp [processItem, hskv]⟩
  | none =>
    exact ⟨randomDelayMs rc.minDelayMs rc.maxDelayMs (c.rng i),
      (skipCheck c rc (resolveChatId c (normalizeContactId item.contact))
          (normalizeContactId item.contact) w).events
        ++ (deliverItem c rc (normalizeContactId item.contact) item.message
            (skipCheck c rc (resolveChatId c (normalizeContactId item.contact))
              (normalizeContactId item.contact) w).world).events,
      by simp [processItem, hskv]⟩

/-- C8: for every digit string `d`, `ensureBrazilian13Digits` (the
`ensureCountryDigitCount` heuristic repair) is idempotent: applying it twice
yields the same result as applying it once. -/
theorem ensureBrazilian13Digits_idempotent (d : Str) :
    ensureBrazilian13Digits (ensureBrazilian13Digits d) = ensureBrazilian13Digits d := by
  conv_lhs => rw [ensureBrazilian13Digits, ensureLoop]
  rw [if_neg (ensureBrazilian13Digits_exits d)]

/-- C9: for every promise `p` and timeout `ms ≤ 0`, `withTimeout p ms` returns
`p` itself with no timeout applied (an unbounded wait), and `withTimeout` can
alter the promise — in particular raise its timeout rejection — only when
`ms > 0`. -/
theorem withTimeout_nonpositive_is_unbounded (p : PromiseModel Unit) (ms : Int) :
    (ms ≤ 0 → withTimeout p ms = p) ∧ (withTimeout p ms ≠ p → 0 < ms) := by
  constructor
  · intro h
    simp [withTimeout, h]
  · intro hne
    by_contra hle
    push_neg at hle
    exact hne (by simp [withTimeout, hle])

/-- Witness for C9 at a concrete promise and the concrete bound `-5`:
the promise comes back unchanged. -/
theorem withTimeout_nonpositive_is_unbounded_witness :
    withTimeout slowPromise (-5) = slowPromise :=
  (withTimeout_nonpositive_is_unbounded slowPromise (-5)).1 (by decide)

/-- C4: whenever `checkAlreadySent` is on (anything but an explicit `false`)
and the last message from us in the resolved chat equals the target text,
`sendAndVerify` returns `{success := true, alreadySent := true}` and the
transport's send operation is never invoked. -/
theorem sendAndVerify_alreadySent_no_send
    (c : Client) (contactId message : Str) (o : SAVOpts) (w : World)
    (hca : o.checkAlreadySent ≠ some false)
    (hlast : (lastFromMeOracle c (resolveChatId c contactId) w.nRead).map Prod.fst
      = some message) :
    (sendAndVerify c contactId message o w).val
        = { success := true, alreadySent := true } ∧
      countSends (sendAndVerify c contactId message o w).events = 0 := by
  have hb : (o.checkAlreadySent != some false) = true := by
    simpa using hca
  simp [sendAndVerify, hb, getLastMessageFromMe, getLastMessageFromMeWithDate, hlast,
    countSends]

/-- Witness for C4: a transport whose chats already show "hi" from us,
targeted with the message "hi". -/
theorem sendAndVerify_alreadySent_no_send_witness :
    (sendAndVerify priorHiClient ("5511999999999@c.us".data) ("hi".data) {} {}).val
        = { success := true, alreadySent := true } ∧
      countSends (sendAndVerify priorHiClient ("5511999999999@c.us".data)
        ("hi".data) {} {}).events = 0 :=
  sendAndVerify_alreadySent_no_send priorHiClient ("5511999999999@c.us".data)
    ("hi".data) {} {} (by decide) (by decide)

/-- When every send settles successfully in time and every history read
disagrees with the target text, each loop iteration performs exactly one
transport send, verification fails every time, and the loop ends in failure
after its `remaining + 1` iterations. -/
theorem savLoop_all_mismatch (c : Client) (contactId message : Str) (t vd : Int)
    (hsend : ∀ id n, (withTimeout (c.sendMessage id message n) t).result = Except.ok ())
    (hread : ∀ id n, (lastFromMeOracle c id n).map Prod.fst ≠ some message) :
    ∀ (remaining attempt : Nat) (chatId : Str) (w : World),
      (savLoop c contactId message t vd chatId attempt remaining w).val.success = false ∧
        countSends (savLoop c contactId message t vd chatId attempt remaining w).events
          = remaining + 1 := by
  intro remaining
  induction remaining with
  | zero =>
    intro attempt chatId w
    simp only [savLoop, hsend, getLastMessageFromMe, getLastMessageFromMeWithDate]
    cases hv : lastFromMeOracle c chatId w.nRead with
    | none => simp [hv, countSends]
    | some pr =>
      have hne : ¬ pr.1 = message := by
        have := hread chatId w.nRead
        rw [hv] at this
        simpa using this
      simp [hv, hne, countSends]
  | succ r ih =>
    intro attempt chatId w
    obtain ⟨ih1, ih2⟩ := ih (attempt + 1) chatId { nSend := w.nSend + 1, nRead := w.nRead + 1 }
    simp only [countSends] at ih2
    rw [savLoop]
    simp only [hsend, getLastMessageFromMe, getLastMessageFromMeWithDate]
    cases hv : lastFromMeOracle c chatId w.nRead with
    | none =>
      constructor
      · simpa using ih1
      · simp [countSends_append, countSends, ih2]
    | some pr =>
      have hne : ¬ pr.1 = message := by
        have := hread chatId w.nRead
        rw [hv] at this
        simpa using this
      constructor
      · simpa [hne] using ih1
      · simp [hne, countSends_append, countSends, ih2]

/-- C3: when every send succeeds (in time) but verification mismatches on
every attempt — which also keeps the already-sent pre-check from triggering —
`sendAndVerify` returns a failure after exactly `maxVerifyRetries + 1`
transport send calls, never more. -/
theorem sendAndVerify_mismatch_exhausts_sends
    (c : Client) (contactId message : Str) (o : SAVOpts) (w : World)
    (hsend : ∀ id n, (withTimeout (c.sendMessage id message n)
        (o.sendTimeoutMs.getD c.cfg.batchSendTimeoutMs)).result = Except.ok ())
    (hread : ∀ id n, (lastFromMeOracle c id n).map Prod.fst ≠ some message) :
    (sendAndVerify c contactId message o w).val.success = false ∧
      countSends (sendAndVerify c contactId message o w).events
        = o.maxVerifyRetries.getD DEFAULT_MAX_VERIFY_RETRIES + 1 := by
  have hloop := savLoop_all_mismatch c contactId message
    (o.sendTimeoutMs.getD c.cfg.batchSendTimeoutMs)
    (o.verifyDelayMs.getD VERIFY_DELAY_MS) hsend hread
    (o.maxVerifyRetries.getD DEFAULT_MAX_VERIFY_RETRIES) 0
  cases hb : (o.checkAlreadySent != some false) with
  | false =>
    simpa [sendAndVerify, hb] using hloop (resolveChatId c contactId) w
  | true =>
    have hfirst := hread (resolveChatId c contactId) w.nRead
    obtain ⟨h1, h2⟩ := hloop (resolveChatId c contactId)
      { nSend := w.nSend, nRead := w.nRead + 1 }
    constructor
    · simpa [sendAndVerify, hb, getLastMessageFromMe, getLastMessageFromMeWithDate,
        hfirst] using h1
    · simp [sendAndVerify, hb, getLastMessageFromMe, getLastMessageFromMeWithDate,
        hfirst, countSends_append]
      simpa [countSends] using h2

/-- Witness for C3: the base fixture transport (sends succeed, chats empty so
every verification read disagrees with "hi"); with the default
`maxVerifyRetries = 2` the run fails after exactly 3 sends. -/
theorem sendAndVerify_mismatch_exhausts_sends_witness :
    (sendAndVerify baseClient ("5511999999999@c.us".data) ("hi".data) {} {}).val.success
        = false ∧
      countSends (sendAndVerify baseClient ("5511999999999@c.us".data)
        ("hi".data) {} {}).events = 3 :=
  sendAndVerify_mismatch_exhausts_sends baseClient ("5511999999999@c.us".data)
    ("hi".data) {} {} (fun _ _ => rfl) (fun _ _ => by simp [baseClient, lastFromMeOracle])

/-- Once the loop's chat id is the `@lid` alias built from the contact, every
transport event the rest of the loop emits addresses that alias: the fallback
guard `lidId !== chatId` can never rebind away from it. -/
theorem savLoop_locked (c : Client) (contactId message : Str) (t vd : Int) (L : Str)
    (hL : contactDigits contactId ++ "@lid".data = L) :
    ∀ (remaining attempt : Nat) (w : World),
      ((savLoop c contactId message t vd L attempt remaining w).events).all (evUsesId L)
        = true := by
  intro remaining
  induction remaining with
  | zero =>
    intro attempt w
    simp only [savLoop, getLastMessageFromMe, getLastMessageFromMeWithDate]
    cases hp : (withTimeout (c.sendMessage L message w.nSend) t).result with
    | ok u =>
      simp only [hp]
      cases hv : lastFromMeOracle c L w.nRead with
      | none => simp [hv, evUsesId]
      | some pr => by_cases hb : pr.1 = message <;> simp [hv, hb, evUsesId]
    | error err =>
      simp only [hp]
      by_cases hc : (isNoLidError err && "@c.us".data.isSuffixOf contactId) = true
      · simp [hc, hL, evUsesId]
      · simp [hc, evUsesId]
  | succ r ih =>
    intro attempt w
    rw [savLoop]
    simp only [getLastMessageFromMe, getLastMessageFromMeWithDate]
    cases hp : (withTimeout (c.sendMessage L message w.nSend) t).result with
    | ok u =>
      simp only [hp]
      cases hv : lastFromMeOracle c L w.nRead with
      | none => simp [hv, evUsesId, List.all_append, ih]
      | some pr =>
        by_cases hb : pr.1 = message <;> simp [hv, hb, evUsesId, List.all_append, ih]
    | error err =>
      simp only [hp]
      by_cases hc : (isNoLidError err && "@c.us".data.isSuffixOf contactId) = true
      · simp [hc, hL, evUsesId, List.all_append, ih]
      · simp [hc, evUsesId, List.all_append, ih]

/-- C10: within one `sendAndVerify` invocation (here with the already-sent
pre-check disabled so the claim's situation is exact), if the first send to the
resolved phone-based id fails with an alias-required ("No LID") error and the
fallback send to the `@lid` alias succeeds, then the first two transport sends
are to the resolved id and the alias, and every later send and verification
read of the invocation addresses the alias, never the original identity. -/
theorem sendAndVerify_lid_fallback_sticks
    (c : Client) (contactId message : Str) (o : SAVOpts) (w : World) (e0 : Str)
    (hca : o.checkAlreadySent = some false)
    (hsuf : "@c.us".data.isSuffixOf contactId = true)
    (hne : contactDigits contactId ++ "@lid".data ≠ resolveChatId c contactId)
    (h0 : (withTimeout (c.sendMessage (resolveChatId c contactId) message w.nSend)
        (o.sendTimeoutMs.getD c.cfg.batchSendTimeoutMs)).result = Except.error e0)
    (h0lid : isNoLidError e0 = true)
    (h1 : (withTimeout (c.sendMessage (contactDigits contactId ++ "@lid".data) message
        (w.nSend + 1)) (o.sendTimeoutMs.getD c.cfg.batchSendTimeoutMs)).result
        = Except.ok ()) :
    (sendAndVerify c contactId message o w).events.take 2
        = [Ev.sendEv (resolveChatId c contactId),
            Ev.sendEv (contactDigits contactId ++ "@lid".data)] ∧
      ((sendAndVerify c contactId message o w).events.drop 2).all
        (evUsesId (contactDigits contactId ++ "@lid".data)) = true := by
  have hlock := savLoop_locked c contactId message
    (o.sendTimeoutMs.getD c.cfg.batchSendTimeoutMs) (o.verifyDelayMs.getD VERIFY_DELAY_MS)
    (contactDigits contactId ++ "@lid".data) rfl
  simp only [sendAndVerify, hca, bne_self_eq_false, Bool.false_eq_true, if_false]
  rw [savLoop]
  simp only [h0, h0lid, hsuf, Bool.and_self, getLastMessageFromMe,
    getLastMessageFromMeWithDate]
  rw [if_pos hne]
  simp only [h1]
  cases hm : (o.maxVerifyRetries.getD DEFAULT_MAX_VERIFY_RETRIES) with
  | zero =>
    cases hv : lastFromMeOracle c (contactDigits contactId ++ "@lid".data) w.nRead with
    | none => simp [hv, evUsesId]
    | some pr =>
      by_cases hb : pr.1 = message <;> simp [hv, hb, evUsesId]
  | succ r =>
    cases hv : lastFromMeOracle c (contactDigits contactId ++ "@lid".data) w.nRead with
    | none => simp [hv, evUsesId, List.all_append, hlock]
    | some pr =>
      by_cases hb : pr.1 = message <;> simp [hv, hb, evUsesId, List.all_append, hlock]

/-- Witness for C10: on `lidFallbackClient` the first send gets the "No LID"
rejection, the alias fallback succeeds, and all later transport events of the
invocation use the `@lid` identity. -/
theorem sendAndVerify_lid_fallback_sticks_witness :
    (sendAndVerify lidFallbackClient ("5511999999999@c.us".data) ("hi".data)
        { checkAlreadySent := some false } {}).events.take 2
        = [Ev.sendEv (resolveChatId lidFallbackClient ("5511999999999@c.us".data)),
            Ev.sendEv (contactDigits ("5511999999999@c.us".data) ++ "@lid".data)] ∧
      ((sendAndVerify lidFallbackClient ("5511999999999@c.us".data) ("hi".data)
          { checkAlreadySent := some false } {}).events.drop 2).all
        (evUsesId (contactDigits ("5511999999999@c.us".data) ++ "@lid".data)) = true :=
  sendAndVerify_lid_fallback_sticks lidFallbackClient ("5511999999999@c.us".data)
    ("hi".data) { checkAlreadySent := some false } {} ("No LID for user".data)
    rfl (by decide) (by decide) rfl (by decide) rfl

/-- C6 (failing input): a contact that already carries the `@lid` identity
suffix is not returned unchanged: `normalizeContactId` strips the suffix and
rebuilds the contact with `@c.us`, because the source's `includes('@')` early
return tests the digit-stripped string (see `stripNonDigits_no_at`) and is
therefore dead code. -/
theorem normalizeContactId_rewrites_lid_suffix :
    normalizeContactId ("1234567890123@lid".data) = ("1234567890123@c.us".data) := by
  decide

end Batch
